import Mathlib

/-!
Shallow embedding of `clickhouse_cli/cli.py` (the `CLI` class): the session
controller loop, statement handling, command rewriting, the connect step and
configuration resolution.  Side effects (terminal output, client calls,
kill requests, metadata refresh) are modelled as an explicit trace of
`Effect` values; the query-execution collaborator is a parameter (`Client`).
-/

namespace ClickhouseCli

/-- One observable side effect of the CLI: an echo call, a direct print, a
call into the query-execution collaborator, a kill request, or a completer
metadata refresh.  `killQuery` records the collaborator's success flag, which
the source code ignores. -/
inductive Effect where
  | echoPrint (s : String)
  | echoError (s : String)
  | echoSuccess (s : String)
  | echoInfo (s : String)
  | printLine (s : String)
  | output (viaPager : Bool) (highlighted : Bool) (s : String)
  | clientQuery (q : String) (query_id : Option String)
  | killQuery (query_id : String) (ok : Bool)
  | refreshMetadata
  deriving DecidableEq, Repr

/-- The response value returned by `Client.query` on success: payload text,
status message, optional row count, optional pre-rendered elapsed time,
format tag, and an optional line-stream handle (`iter_lines`). -/
structure Response where
  data : String
  message : String
  rows : Option Int
  time_elapsed : Option String
  format : String
  iter_lines : Option (List String)
  deriving DecidableEq, Repr

/-- A server-side query failure (`DBException`): error text, optional stack
trace, and the pre-rendered elapsed seconds of the failed request. -/
structure DBException where
  error : String
  stacktrace : Option String
  elapsed : String
  deriving DecidableEq, Repr

/-- Result of one call into the query-execution collaborator: success with a
response, or one of the three failure signals the CLI classifies
(`TimeoutError`, `ConnectionError`, `DBException`). -/
inductive QueryResult where
  | success (resp : Response)
  | timeout
  | connectionError
  | dbException (e : DBException)
  deriving DecidableEq, Repr

/-- The query-execution collaborator: `query` maps a statement and its
execution identifier to an outcome; `kill_ok` tells whether a kill request
for a given identifier succeeds (the CLI never inspects this). -/
structure Client where
  query : String → Option String → QueryResult
  kill_ok : String → Bool

/-- The slice of `CLI` instance state that `handle_query` reads:
the stacktrace flag, the resolved format, the server version triple
(populated by `connect`), and the resolved display options. -/
structure CLIState where
  stacktrace : Bool
  format : String
  server_version : Int × Int × Int
  highlight : Bool
  highlight_output : Bool
  cfg_pager : Bool
  cfg_timing : Bool

/-- Keyword arguments of `handle_query`, with the Python defaults. -/
structure HQArgs where
  data : Option String := none
  stream : Bool := false
  verbose : Bool := false
  query_id : Option String := none
  compress : Bool := false
  force_pager : Bool := false
  deriving DecidableEq, Repr

/-- Outcome of one `handle_query` call: normal return, or a raised
`EOFError` (the exit signal). -/
inductive HQOutcome where
  | ok
  | eofError
  deriving DecidableEq, Repr

/-- Python `str.rstrip(';')`: drop trailing semicolon characters. -/
def pyRstripSemi (s : String) : String :=
  String.mk ((s.toList.reverse.dropWhile (fun c => c = ';')).reverse)

/-- Python `str.lower()` (ASCII range, which covers every keyword the CLI
compares against). -/
def pyLower (s : String) : String :=
  String.mk (s.toList.map Char.toLower)

/-- Python `str.startswith(t)`. -/
def pyStartsWith (s t : String) : Bool :=
  t.toList.isPrefixOf s.toList

/-- Python `str.endswith(t)`. -/
def pyEndsWith (s t : String) : Bool :=
  t.toList.isSuffixOf s.toList

/-- Python `s[n:]`. -/
def pyDrop (s : String) (n : Nat) : String :=
  String.mk (s.toList.drop n)

/-- Python `s[:-2]`. -/
def pyDropRight2 (s : String) : String :=
  String.mk (s.toList.take (s.toList.length - 2))

/-- Python `str.strip()`: remove leading and trailing whitespace. -/
def pyStrip (s : String) : String :=
  String.mk (((s.toList.dropWhile Char.isWhitespace).reverse.dropWhile
    Char.isWhitespace).reverse)

/-- Accumulator pass of Python `str.split('.')`. -/
def splitDotAux : List Char → List Char → List String
  | [], acc => [String.mk acc.reverse]
  | c :: rest, acc =>
      if c = '.' then String.mk acc.reverse :: splitDotAux rest []
      else splitDotAux rest (c :: acc)

/-- Python `str.split('.')`: split on every dot, keeping empty pieces
(the empty string splits to one empty piece). -/
def pySplitDot (s : String) : List String :=
  splitDotAux s.toList []

/-- Python truthiness of an optional string: `None` and the empty string are
falsy, every other string is truthy. -/
def pyTruthy : Option String → Bool
  | none => false
  | some s => !(s == "")

/-- Python `"...".format(x)` on an optional string argument: `None` renders
as the text `None`. -/
def pyFormatArg : Option String → String
  | some s => s
  | none => "None"

/-- Modelled from the spec: `EXIT_COMMANDS` lives in
`clickhouse_cli/clickhouse/definitions.py`, which is not under `src/`.
The spec says a statement matching a configured exit keyword
case-insensitively signals exit, so the keywords are modelled as a set of
lowercase words (the source compares `query.lower()` against the set). -/
def EXIT_COMMANDS : List String := ["exit", "quit", "logout", "q"]

/-- Modelled from the spec: `PRETTY_FORMATS` lives in
`clickhouse_cli/clickhouse/definitions.py`, which is not under `src/`.
The spec describes it as a fixed allow-list of human-readable formats
eligible for output highlighting. -/
def PRETTY_FORMATS : List String :=
  ["Pretty", "PrettyCompact", "PrettyCompactMonoBlock", "PrettyNoEscapes", "PrettySpace"]

/-- The fixed two-column help table printed for `\?` / `help`
(`rows` in `handle_query`). -/
def helpRows : List (String × String) :=
  [ ("", ""),
    ("clickhouse-cli\x27s custom commands:", ""),
    ("---------------------------------", ""),
    ("USE", "Change the current database."),
    ("SET", "Set an option for the current CLI session."),
    ("QUIT", "Exit clickhouse-cli."),
    ("HELP", "Show this help message."),
    ("", ""),
    ("PostgreSQL-like custom commands:", ""),
    ("--------------------------------", ""),
    ("\\l", "Show databases."),
    ("\\c", "Change the current database."),
    ("\\d, \\dt", "Show tables in the current database."),
    ("\\d+", "Show table\x27s schema."),
    ("\\ps", "Show current queries."),
    ("\\kill", "Kill query by its ID."),
    ("", ""),
    ("Query suffixes:", ""),
    ("---------------", ""),
    ("\\g, \\G", "Use the Vertical format."),
    ("\\p", "Enable the pager.") ]

/-- Python format spec `\x7b:<8s\x7d`: left-justify in a field of width 8. -/
def pad8 (s : String) : String :=
  s ++ String.mk (List.replicate (8 - s.length) ' ')

/-- The echo calls emitted by the help branch: per row, a success-styled
left-padded first column (no newline) and an info-styled second column. -/
def helpEffects : List Effect :=
  helpRows.flatMap (fun r => [.echoSuccess (pad8 r.1), .echoInfo r.2])

/-- The `\ps` rewrite: a process-list query whose row-count column is
`read_rows` when the server patch version is at least 54115 and `rows_read`
below that, filtering out the current statement's own execution
identifier. -/
def psQuery (st : CLIState) (query_id : Option String) : String :=
  "SELECT query_id, user, address, elapsed, "
    ++ (if st.server_version.2.2 ≥ 54115 then "read_rows" else "rows_read")
    ++ ", memory_usage FROM system.processes WHERE query_id != \x27"
    ++ pyFormatArg query_id ++ "\x27"

/-- The streaming branch of the success path: use the response's
line-iterator when it exposes one, else iterate the payload text itself
(which in Python iterates character by character; the byte-decode call is
elided). -/
def streamEffects (resp : Response) : List Effect :=
  match resp.iter_lines with
  | some ls => ls.map Effect.printLine
  | none => resp.data.toList.map (fun c => Effect.printLine (String.singleton c))

/-- Rendering of a successful response (the tail of `handle_query` after the
`try` block): blank line, payload (streamed, or buffered through pager and
optional highlighting), status message, `Ok.` marker, pluralized row count,
optional timing line, final blank line. -/
def successEffects (st : CLIState) (resp : Response) (a : HQArgs) : List Effect :=
  [Effect.echoPrint ""]
  ++ (if a.stream then
        streamEffects resp
      else if resp.data ≠ "" then
        [Effect.output (st.cfg_pager || a.force_pager)
          (a.verbose && st.highlight && st.highlight_output
            && PRETTY_FORMATS.contains resp.format)
          resp.data]
      else [])
  ++ (if resp.message ≠ "" then [Effect.echoPrint resp.message, Effect.echoPrint ""] else [])
  ++ [Effect.echoSuccess "Ok. "]
  ++ (match resp.rows with
      | some n =>
          [Effect.echoPrint (toString n ++ " row" ++ (if n ≠ 1 then "s" else "") ++ " in set.")]
      | none => [])
  ++ (match resp.time_elapsed with
      | some t => if st.cfg_timing then [Effect.echoPrint ("Elapsed: " ++ t ++ " sec.")] else []
      | none => [])
  ++ [Effect.echoPrint "\n"]

/-- The dispatch tail of `handle_query` (lines 316-402 of `cli.py`): invoke
the collaborator and classify the outcome.  Timeout and connection failures
print one error line and return; a `DBException` prints the query text, the
server error, the optional stack trace and the elapsed time; success renders
the response.  The collaborator call itself is recorded as an effect. -/
def dispatch (st : CLIState) (client : Client) (query : String) (a : HQArgs) :
    HQOutcome × List Effect :=
  match client.query query a.query_id with
  | .timeout =>
      (.ok, [.clientQuery query a.query_id, .echoError "Error: Connection timeout."])
  | .connectionError =>
      (.ok, [.clientQuery query a.query_id, .echoError "Error: Failed to connect."])
  | .dbException e =>
      (.ok,
        [.clientQuery query a.query_id,
         .echoError "\nQuery:", .echoError query,
         .echoError "\n\nReceived exception from server:", .echoError e.error]
        ++ (if st.stacktrace && pyTruthy e.stacktrace then
              [Effect.echoPrint "\nStack trace:", Effect.echoPrint (e.stacktrace.getD "")]
            else [])
        ++ [Effect.echoPrint ("\nElapsed: " ++ e.elapsed ++ " sec.\n")])
  | .success resp => (.ok, .clientQuery query a.query_id :: successEffects st resp a)

/-- `CLI.handle_query`: the guard for semicolon-only statements, the
case-insensitive exit and help matches, the case-sensitive backslash
meta-command rewrites (in source order), the direct `\kill` action, and
finally dispatch of the (possibly rewritten) statement. -/
def handle_query (st : CLIState) (client : Client) (query : String) (a : HQArgs) :
    HQOutcome × List Effect :=
  if pyRstripSemi query = "" then
    (.ok, [])
  else if EXIT_COMMANDS.contains (pyLower query) then
    (.eofError, [])
  else if pyLower query = "\\?" ∨ pyLower query = "help" then
    (.ok, helpEffects)
  else if query = "\\d" ∨ query = "\\dt" then
    dispatch st client "SHOW TABLES" a
  else if pyStartsWith query "\\d+ " then
    dispatch st client ("DESCRIBE TABLE " ++ pyDrop query 4) a
  else if query = "\\l" then
    dispatch st client "SHOW DATABASES" a
  else if pyStartsWith query "\\c " then
    dispatch st client ("USE " ++ pyDrop query 3) a
  else if pyStartsWith query "\\ps" then
    dispatch st client (psQuery st a.query_id) a
  else if pyStartsWith query "\\kill " then
    (.ok, [.killQuery (pyDrop query 6) (client.kill_ok (pyDrop query 6))])
  else
    dispatch st client query a

/-- The statement loop of `CLI.handle_input`: one fresh execution identifier
per split statement (identifier generation is modelled by `genId` applied to
the statement index), appended to the tracked set before the statement is
handled; a raised `EOFError` aborts the loop and propagates. -/
def handle_input_loop (st : CLIState) (client : Client) (genId : Nat → String) :
    List String → Nat → Bool → Bool → HQOutcome × List String × List Effect
  | [], _, _, _ => (.ok, [], [])
  | q :: rest, idx, force, v =>
      let r := handle_query st client q
        { verbose := v, query_id := some (genId idx), force_pager := force }
      match r.1 with
      | .eofError => (.eofError, [genId idx], r.2)
      | .ok =>
          let t := handle_input_loop st client genId rest (idx + 1) force v
          (t.1, genId idx :: t.2.1, r.2 ++ t.2.2)

/-- `CLI.handle_input`: strip a trailing two-character pager marker and
remember the force-pager flag for the whole unit, split the remaining text
(splitting is the tokenization collaborator, passed as `split`), run the
statement loop, and refresh completion metadata when requested and the
(stripped) input is non-empty. -/
def handle_input (st : CLIState) (client : Client) (split : String → List String)
    (genId : Nat → String) (input_data : String) (verbose refresh_metadata : Bool) :
    HQOutcome × List String × List Effect :=
  let p := if pyEndsWith input_data "\\p" then (pyDropRight2 input_data, true)
           else (input_data, false)
  let r := handle_input_loop st client genId (split p.1) 0 p.2 verbose
  match r.1 with
  | .eofError => r
  | .ok =>
      (.ok, r.2.1,
        r.2.2 ++ (if refresh_metadata ∧ p.1 ≠ "" then [Effect.refreshMetadata] else []))

/-- How one iteration of the interactive loop in `CLI.run` ends: the input
unit completed normally, a `KeyboardInterrupt` arrived while the given
identifiers were tracked, or an `EOFError` (exit) propagated.  Each case
carries the tracked identifier set at that moment. -/
inductive UnitResult where
  | completed (ids : List String)
  | interrupted (ids : List String)
  | exited (ids : List String)
  deriving DecidableEq, Repr

/-- The `try/except KeyboardInterrupt/finally` body of the interactive loop
in `CLI.run`: on interrupt, issue one kill request per tracked identifier
(ignoring whether it succeeds) and report termination; in every case the
`finally` clause resets the tracked identifier set to empty.  Returns the
emitted effects and the tracked set after the iteration. -/
def runLoopIteration (client : Client) : UnitResult → List Effect × List String
  | .completed _ => ([], [])
  | .interrupted ids =>
      (ids.map (fun i => Effect.killQuery i (client.kill_ok i))
        ++ [Effect.echoError "\nQuery was terminated."], [])
  | .exited _ => ([], [])

/-- Extracts the identifier of a kill-request effect. -/
def killedId : Effect → Option String
  | .killQuery i _ => some i
  | _ => none

/-- Expected trace of an input unit in which every statement is handled:
statement `i` is passed to `handle_query` with identifier `genId (idx + i)`
and the unit's force-pager flag.  Used to state the loop-completeness
claims. -/
def unitQueryEffects (st : CLIState) (client : Client) (genId : Nat → String) :
    List String → Nat → Bool → Bool → List Effect
  | [], _, _, _ => []
  | q :: rest, idx, force, v =>
      (handle_query st client q
        { verbose := v, query_id := some (genId idx), force_pager := force }).2
      ++ unitQueryEffects st client genId rest (idx + 1) force v

/-- Expected tracked identifier list for a fully processed unit: one fresh
identifier per statement, in order. -/
def unitIds (genId : Nat → String) : List String → Nat → List String
  | [], _ => []
  | _ :: rest, idx => genId idx :: unitIds genId rest (idx + 1)

/-- Python `int(...)` on a digit run (no sign): rejects the empty string and
any non-digit character.  Underscore digit grouping is not modelled. -/
def pyDigits : List Char → Option Nat
  | [] => none
  | l =>
      if l.all Char.isDigit then
        some (l.foldl (fun acc c => acc * 10 + (c.toNat - 48)) 0)
      else none

/-- Python `int(s)` for a decimal string: surrounding whitespace is
stripped, an optional single sign is allowed, the rest must be digits. -/
def pyIntParse (s : String) : Option Int :=
  match (pyStrip s).toList with
  | '+' :: rest => (pyDigits rest).map (fun n => (n : Int))
  | '-' :: rest => (pyDigits rest).map (fun n => -(n : Int))
  | l => (pyDigits l).map (fun n => (n : Int))

/-- The Python exceptions the version parse in `CLI.connect` can raise:
`int(...)` raises `ValueError` on a malformed component, and subscripting
the split list raises `IndexError` when fewer than three components
exist. -/
inductive PyError where
  | valueError
  | indexError
  deriving DecidableEq, Repr

/-- How `CLI.connect` ends: a normal `return True` / `return False`, or an
uncaught Python exception propagating out of it. -/
inductive ConnectOutcome where
  | returned (success : Bool)
  | raised (e : PyError)
  deriving DecidableEq, Repr

/-- The version parse in `CLI.connect`:
`version = response.data.strip().split('.')` followed by
`(int(version[0]), int(version[1]), int(version[2]))`, with Python's
left-to-right evaluation of the subscripts and conversions. -/
def parseVersionTriple (data : String) : Except PyError (Int × Int × Int) :=
  let version := pySplitDot (pyStrip data)
  match pyIntParse (version.getD 0 "") with
  | none => .error .valueError
  | some a =>
    match version.get? 1 with
    | none => .error .indexError
    | some s1 =>
      match pyIntParse s1 with
      | none => .error .valueError
      | some b =>
        match version.get? 2 with
        | none => .error .indexError
        | some s2 =>
          match pyIntParse s2 with
          | none => .error .valueError
          | some c => .ok (a, b, c)

/-- `CLI.connect`: announce the connection, probe the version with
`SELECT version();` (the probe outcome is the parameter), convert the three
collaborator failures to error messages and `return False`, reject a
response that does not end in a newline with an error message and
`return False`, then parse the version triple — a parse failure is an
uncaught exception — and report success. -/
def connect (host port : String) (stacktrace : Bool) (probe : QueryResult) :
    List Effect × ConnectOutcome :=
  let pre := [Effect.echoPrint ("Connecting to " ++ host ++ ":" ++ port)]
  match probe with
  | .timeout => (pre ++ [.echoError "Error: Connection timeout."], .returned false)
  | .connectionError => (pre ++ [.echoError "Error: Failed to connect."], .returned false)
  | .dbException e =>
      (pre ++ [.echoError "Error:", .echoError e.error]
        ++ (if stacktrace && pyTruthy e.stacktrace then
              [Effect.echoPrint "Stack trace:", Effect.echoPrint (e.stacktrace.getD "")]
            else []),
       .returned false)
  | .success resp =>
      if !(pyEndsWith resp.data "\n") then
        (pre ++ [.echoError "Error: Request failed: `SELECT version();` query failed."],
         .returned false)
      else
        match parseVersionTriple resp.data with
        | .error e => (pre, .raised e)
        | .ok (x, y, z) =>
            (pre ++ [.echoSuccess ("Connected to ClickHouse server v"
              ++ toString x ++ "." ++ toString y ++ "." ++ toString z ++ ".\n")],
             .returned (true : Bool))

/-- The CLI-supplied values `CLI.__init__` stores before `load_config` runs
(`none` models an unsupplied option; boolean flags default to false). -/
structure CLIArgs where
  host : Option String
  port : Option Int
  user : Option String
  password : Option String
  database : Option String
  format : Option String
  format_stdin : Option String
  multiline : Bool
  stacktrace : Bool
  deriving DecidableEq, Repr

/-- The configuration file values `load_config` reads.  `read_config` lives
in `clickhouse_cli/config.py`, which is not under `src/`; per the spec's
configuration-collaborator contract, string getters yield the configured
string, with an absent key modelled as the empty string (which is falsy in
the `or` fallback chains of the source).  The float-valued `http` section
is not modelled. -/
structure FileConfig where
  multiline : Bool
  format : String
  format_stdin : String
  show_formatted_query : Bool
  highlight : Bool
  highlight_output : Bool
  host : String
  port : String
  user : String
  password : String
  db : String
  deriving DecidableEq, Repr

/-- The configuration `load_config` resolves onto the `CLI` instance. -/
structure ResolvedConfig where
  multiline : Bool
  format : String
  format_stdin : String
  show_formatted_query : Bool
  highlight : Bool
  highlight_output : Bool
  host : String
  port : Sum Int String
  user : String
  password : String
  database : String
  deriving DecidableEq, Repr

/-- Python `cli or cfg` for an optional CLI string against a configured
string: a missing or empty CLI value falls through to the configured one. -/
def pyOrStr (cli : Option String) (cfg : String) : String :=
  match cli with
  | some s => if s = "" then cfg else s
  | none => cfg

/-- Python `a or b` on two strings: the empty string is falsy. -/
def pyOrStr2 (a b : String) : String :=
  if a = "" then b else a

/-- Python `self.port or self.config.get('defaults', 'port') or 8123`:
a missing or zero CLI port falls back to the configured string, an empty
configured string falls back to the integer default — the resolved value is
an int or a string depending on the path taken. -/
def resolvePort (cli : Option Int) (cfg : String) : Sum Int String :=
  match cli with
  | some n =>
      if n = 0 then (if cfg = "" then .inl 8123 else .inr cfg) else .inl n
  | none => if cfg = "" then .inl 8123 else .inr cfg

/-- `CLI.load_config`: merge CLI-supplied values with the configuration
file.  `multiline` is taken from the configuration file unconditionally;
`format` and `format_stdin` fall back from the CLI value to the file; the
display booleans come from the file; the `defaults` section entries fall
back CLI value → file value → hard-coded default.  (The `settings` merge
and the float-valued `http` options are not modelled; no verified property
mentions them.) -/
def load_config (cli : CLIArgs) (cfg : FileConfig) : ResolvedConfig :=
  { multiline := cfg.multiline
    format := pyOrStr cli.format cfg.format
    format_stdin := pyOrStr cli.format_stdin cfg.format_stdin
    show_formatted_query := cfg.show_formatted_query
    highlight := cfg.highlight
    highlight_output := cfg.highlight_output
    host := pyOrStr cli.host (pyOrStr2 cfg.host "127.0.0.1")
    port := resolvePort cli.port cfg.port
    user := pyOrStr cli.user (pyOrStr2 cfg.user "default")
    password := pyOrStr cli.password (pyOrStr2 cfg.password "")
    database := pyOrStr cli.database (pyOrStr2 cfg.db "default") }

/-- A statement that reaches the dispatch tail untouched: it survives the
semicolon guard and matches none of the exit, help, rewrite or kill
branches of `handle_query`. -/
def isPassthrough (q : String) : Prop :=
  ¬ pyRstripSemi q = ""
  ∧ ¬ EXIT_COMMANDS.contains (pyLower q) = true
  ∧ ¬ (pyLower q = "\\?" ∨ pyLower q = "help")
  ∧ ¬ (q = "\\d" ∨ q = "\\dt")
  ∧ ¬ pyStartsWith q "\\d+ " = true
  ∧ ¬ q = "\\l"
  ∧ ¬ pyStartsWith q "\\c " = true
  ∧ ¬ pyStartsWith q "\\ps" = true
  ∧ ¬ pyStartsWith q "\\kill " = true

instance (q : String) : Decidable (isPassthrough q) := by
  unfold isPassthrough; infer_instance

/-!  Fixtures used by the concrete witnesses and counterexamples. -/

/-- A session state with stacktrace display off and server patch 54115. -/
def stDefault : CLIState :=
  { stacktrace := false, format := "PrettyCompactMonoBlock",
    server_version := (1, 1, 54115), highlight := true, highlight_output := true,
    cfg_pager := false, cfg_timing := false }

/-- The same session state with server patch 54114. -/
def st54114 : CLIState :=
  { stDefault with server_version := (1, 1, 54114) }

/-- The same session state with stacktrace display enabled. -/
def stTrace : CLIState :=
  { stDefault with stacktrace := true }

/-- A collaborator whose every query times out. -/
def clientTimeout : Client :=
  { query := fun _ _ => .timeout, kill_ok := fun _ => true }

/-- A concrete server exception carrying a stack trace. -/
def dbErr : DBException :=
  { error := "Code: 60. DB::Exception", stacktrace := some "0. Trace", elapsed := "0.001" }

/-- A collaborator whose every query fails with `dbErr`. -/
def clientDBErr : Client :=
  { query := fun _ _ => .dbException dbErr, kill_ok := fun _ => true }

/-- A plausible CLI argument record with nothing supplied. -/
def cliNone : CLIArgs :=
  { host := none, port := none, user := none, password := none, database := none,
    format := none, format_stdin := none, multiline := false, stacktrace := false }

/-- A plausible configuration file record. -/
def cfgBase : FileConfig :=
  { multiline := false, format := "PrettyCompactMonoBlock", format_stdin := "TabSeparated",
    show_formatted_query := true, highlight := true, highlight_output := true,
    host := "", port := "", user := "", password := "", db := "" }

/-- A probe response around concrete version text. -/
def probeResp (d : String) : Response :=
  { data := d, message := "", rows := none, time_elapsed := none,
    format := "TabSeparated", iter_lines := none }

/-!  Helper lemmas shared by the claim theorems. -/

/-- Every branch of the dispatch tail begins with the collaborator call. -/
theorem dispatch_head (st : CLIState) (client : Client) (q : String) (a : HQArgs) :
    (dispatch st client q a).2.head? = some (Effect.clientQuery q a.query_id) := by
  unfold dispatch
  cases client.query q a.query_id <;> rfl

/-- The dispatch tail never raises: every branch returns normally. -/
theorem dispatch_ok (st : CLIState) (client : Client) (q : String) (a : HQArgs) :
    (dispatch st client q a).1 = .ok := by
  unfold dispatch
  cases client.query q a.query_id <;> rfl

/-- `handle_query` raises `EOFError` only for exit keywords. -/
theorem handle_query_ok (st : CLIState) (client : Client) (q : String) (a : HQArgs)
    (h : EXIT_COMMANDS.contains (pyLower q) = false) :
    (handle_query st client q a).1 = .ok := by
  unfold handle_query
  repeat' split
  all_goals first | rfl | apply dispatch_ok | simp_all

/-- A passthrough statement is handed to the dispatch tail unchanged. -/
theorem handle_query_passthrough (st : CLIState) (client : Client) (q : String) (a : HQArgs)
    (h : isPassthrough q) :
    handle_query st client q a = dispatch st client q a := by
  obtain ⟨h1, h2, h3, h4, h5, h6, h7, h8, h9⟩ := h
  unfold handle_query
  rw [if_neg h1, if_neg h2, if_neg h3, if_neg h4, if_neg h5, if_neg h6, if_neg h7,
      if_neg h8, if_neg h9]

/-- When no statement of a unit is an exit keyword, the statement loop
processes the whole unit: it returns normally, assigns one fresh identifier
per statement, and emits exactly the concatenation of the per-statement
traces. -/
theorem handle_input_loop_complete (st : CLIState) (client : Client) (genId : Nat → String)
    (qs : List String) (idx : Nat) (force v : Bool)
    (h : ∀ q ∈ qs, EXIT_COMMANDS.contains (pyLower q) = false) :
    handle_input_loop st client genId qs idx force v
      = (.ok, unitIds genId qs idx, unitQueryEffects st client genId qs idx force v) := by
  induction qs generalizing idx with
  | nil => rfl
  | cons q rest ih =>
      have hq := handle_query_ok st client q
        { verbose := v, query_id := some (genId idx), force_pager := force }
        (h q (by simp))
      have hrest := ih (idx + 1) (fun q' hq' => h q' (by simp [hq']))
      simp only [handle_input_loop, hq, hrest, unitIds, unitQueryEffects]

/-!  Claim theorems. -/

/-- C1: when a user interrupt arrives while N execution identifiers are
tracked for the current input unit, exactly N kill-query requests are
issued, one per tracked identifier in order, and the tracked identifier set
is empty immediately afterwards — regardless of whether the kill requests
succeed (the collaborator's `kill_ok` is arbitrary); the set is also
cleared unconditionally after every unit, interrupted or not. -/
theorem run_interrupt_cancels_all_and_clears (client : Client) (ids : List String) :
    ((runLoopIteration client (.interrupted ids)).1.filterMap killedId = ids)
    ∧ (runLoopIteration client (.interrupted ids)).2 = []
    ∧ ∀ r : UnitResult, (runLoopIteration client r).2 = [] := by
  refine ⟨?_, rfl, ?_⟩
  · induction ids with
    | nil => rfl
    | cons x xs ih =>
        simpa [runLoopIteration, killedId] using ih
  · intro r
    cases r <;> rfl

/-- C2 counterexample: a whitespace-only statement is not a silent no-op —
`rstrip(';')` removes only semicolons, so the single-space statement
survives the guard, the execution collaborator is invoked on it, and
output is produced. -/
theorem whitespace_statement_is_dispatched :
    handle_query stDefault clientTimeout " " {}
      = (.ok, [Effect.clientQuery " " none,
               Effect.echoError "Error: Connection timeout."]) := by
  rfl

/-- C2 (amended): every statement that is empty after stripping trailing
semicolon characters (the empty string, `;`, `;;`, …) is a silent no-op:
the execution collaborator is not invoked and no output is produced. -/
theorem empty_after_semicolon_strip_is_noop (st : CLIState) (client : Client)
    (q : String) (a : HQArgs) (h : pyRstripSemi q = "") :
    handle_query st client q a = (.ok, []) := by
  unfold handle_query
  rw [if_pos h]

/-- C2 witness: the bare-semicolon statement is a silent no-op. -/
theorem empty_after_semicolon_strip_is_noop_witness :
    handle_query stDefault clientTimeout ";" {} = (.ok, []) :=
  empty_after_semicolon_strip_is_noop stDefault clientTimeout ";" {} (by rfl)

/-- C3: the resolved multiline setting always equals the configuration
file's `main.multiline` value — `load_config` overwrites the CLI-supplied
multiline flag unconditionally, so supplying the flag with a configuration
of `multiline = false` resolves to `false`, contradicting the claimed
CLI-over-file precedence. -/
theorem load_config_multiline_ignores_cli (cli : CLIArgs) (cfg : FileConfig) :
    (load_config { cli with multiline := true } { cfg with multiline := false }).multiline
      = false := by
  rfl

/-- C4 counterexample: a version-probe response that ends with the expected
terminator but does not parse as three integers (`"abc\n"`) makes the
connect step raise an uncaught `ValueError` that propagates past it, with
no user-facing error message — refuting the claim that every malformed
probe is reported and converted to a failure return. -/
theorem connect_parse_error_propagates :
    connect "127.0.0.1" "8123" false (.success (probeResp "abc\n"))
      = ([Effect.echoPrint "Connecting to 127.0.0.1:8123"], .raised .valueError) := by
  rfl

/-- C4 (amended): a version-probe response that does not end with the
expected terminator is reported with a user-facing error message and the
connect step returns failure; a response that ends with the terminator but
fails to parse as three integers instead raises an uncaught error that
propagates past the connect step. -/
theorem connect_malformed_probe_behavior :
    (∀ (host port : String) (stack : Bool) (resp : Response),
        pyEndsWith resp.data "\n" = false →
        connect host port stack (.success resp)
          = ([Effect.echoPrint ("Connecting to " ++ host ++ ":" ++ port),
              Effect.echoError "Error: Request failed: `SELECT version();` query failed."],
             .returned false))
    ∧ (∀ (host port : String) (stack : Bool) (resp : Response) (e : PyError),
        pyEndsWith resp.data "\n" = true →
        parseVersionTriple resp.data = .error e →
        connect host port stack (.success resp)
          = ([Effect.echoPrint ("Connecting to " ++ host ++ ":" ++ port)], .raised e)) := by
  constructor
  · intro host port stack resp hend
    simp [connect, hend]
  · intro host port stack resp e hend hparse
    simp [connect, hend, hparse]

/-- C4 witness: a response without the terminator is reported and connect
returns failure; `"1.1\n"` parses short and raises `IndexError`. -/
theorem connect_malformed_probe_behavior_witness :
    connect "h" "p" false (.success (probeResp "abc"))
      = ([Effect.echoPrint "Connecting to h:p",
          Effect.echoError "Error: Request failed: `SELECT version();` query failed."],
         .returned false)
    ∧ connect "h" "p" false (.success (probeResp "1.1\n"))
      = ([Effect.echoPrint "Connecting to h:p"], .raised .indexError) :=
  ⟨connect_malformed_probe_behavior.1 "h" "p" false (probeResp "abc") (by rfl),
   connect_malformed_probe_behavior.2 "h" "p" false (probeResp "1.1\n") .indexError
     (by rfl) (by rfl)⟩

/-- C5: a timeout signalled by the execution collaborator for one statement
makes the dispatcher report a timeout error and return normally (no raise),
and — since only exit keywords abort a unit — the statement loop still
processes every statement of the unit, emitting exactly the concatenation
of the per-statement traces. -/
theorem timeout_does_not_abort_unit (st : CLIState) (client : Client) (genId : Nat → String)
    (qs : List String) (idx : Nat) (force v : Bool)
    (h : ∀ q ∈ qs, EXIT_COMMANDS.contains (pyLower q) = false) :
    ((handle_input_loop st client genId qs idx force v).1 = .ok
      ∧ (handle_input_loop st client genId qs idx force v).2.2
          = unitQueryEffects st client genId qs idx force v)
    ∧ (∀ (q : String) (a : HQArgs), isPassthrough q →
        client.query q a.query_id = .timeout →
        handle_query st client q a
          = (.ok, [Effect.clientQuery q a.query_id,
                   Effect.echoError "Error: Connection timeout."])) := by
  refine ⟨?_, ?_⟩
  · rw [handle_input_loop_complete st client genId qs idx force v h]
    exact ⟨rfl, rfl⟩
  · intro q a hp hto
    rw [handle_query_passthrough st client q a hp]
    simp [dispatch, hto]

/-- C5 witness: with a collaborator that times out on everything, a
two-statement unit still dispatches both statements, each reporting the
timeout, and the loop returns normally. -/
theorem timeout_does_not_abort_unit_witness :
    (handle_input_loop stDefault clientTimeout (fun n => toString n)
        ["SELECT 1", "SELECT 2"] 0 false false).1 = .ok
    ∧ (handle_input_loop stDefault clientTimeout (fun n => toString n)
        ["SELECT 1", "SELECT 2"] 0 false false).2.2
        = [Effect.clientQuery "SELECT 1" (some "0"),
           Effect.echoError "Error: Connection timeout.",
           Effect.clientQuery "SELECT 2" (some "1"),
           Effect.echoError "Error: Connection timeout."] := by
  have h := (timeout_does_not_abort_unit stDefault clientTimeout (fun n => toString n)
      ["SELECT 1", "SELECT 2"] 0 false false (by decide)).1
  refine ⟨h.1, ?_⟩
  rw [h.2]
  rfl

/-- C6: the `\ps` rewrite selects the row-count column `read_rows` when the
server patch version is at least 54115 and `rows_read` when it is below,
and the rewritten query filters out the statement's own execution
identifier in its `WHERE` clause. -/
theorem ps_rewrite_version_threshold (st : CLIState) (client : Client) (a : HQArgs)
    (qid : String) (h : a.query_id = some qid) :
    (st.server_version.2.2 ≥ 54115 →
        (handle_query st client "\\ps" a).2.head?
          = some (Effect.clientQuery
              ("SELECT query_id, user, address, elapsed, " ++ "read_rows"
                ++ ", memory_usage FROM system.processes WHERE query_id != \x27"
                ++ qid ++ "\x27") (some qid)))
    ∧ (st.server_version.2.2 < 54115 →
        (handle_query st client "\\ps" a).2.head?
          = some (Effect.clientQuery
              ("SELECT query_id, user, address, elapsed, " ++ "rows_read"
                ++ ", memory_usage FROM system.processes WHERE query_id != \x27"
                ++ qid ++ "\x27") (some qid))) := by
  have hd : (handle_query st client "\\ps" a).2.head?
      = some (Effect.clientQuery (psQuery st a.query_id) a.query_id) :=
    dispatch_head st client (psQuery st a.query_id) a
  constructor
  · intro hge
    rw [hd, h]
    simp [psQuery, pyFormatArg, hge]
  · intro hlt
    rw [hd, h]
    simp [psQuery, pyFormatArg, not_le.mpr hlt]

/-- C6 witness: with patch 54115 the rewritten process-list query selects
`read_rows`; with patch 54114 it selects `rows_read`; both filter out the
statement's own identifier. -/
theorem ps_rewrite_version_threshold_witness :
    (handle_query stDefault clientTimeout "\\ps" { query_id := some "qid0" }).2.head?
      = some (Effect.clientQuery
          ("SELECT query_id, user, address, elapsed, " ++ "read_rows"
            ++ ", memory_usage FROM system.processes WHERE query_id != \x27"
            ++ "qid0" ++ "\x27") (some "qid0"))
    ∧ (handle_query st54114 clientTimeout "\\ps" { query_id := some "qid0" }).2.head?
      = some (Effect.clientQuery
          ("SELECT query_id, user, address, elapsed, " ++ "rows_read"
            ++ ", memory_usage FROM system.processes WHERE query_id != \x27"
            ++ "qid0" ++ "\x27") (some "qid0")) :=
  ⟨(ps_rewrite_version_threshold stDefault clientTimeout { query_id := some "qid0" }
      "qid0" rfl).1 (by decide),
   (ps_rewrite_version_threshold st54114 clientTimeout { query_id := some "qid0" }
      "qid0" rfl).2 (by decide)⟩

/-- C7: on a server exception carrying a stack trace, the dispatcher prints
the statement text, then the server error text, then — exactly when
stacktrace display is enabled — the trace, followed by the elapsed time,
and processing of that statement ends with a normal return. -/
theorem db_exception_report_order (st : CLIState) (client : Client) (q : String)
    (a : HQArgs) (e : DBException) (hp : isPassthrough q)
    (he : client.query q a.query_id = .dbException e)
    (ht : pyTruthy e.stacktrace = true) :
    handle_query st client q a
      = (.ok,
         [Effect.clientQuery q a.query_id, Effect.echoError "\nQuery:", Effect.echoError q,
          Effect.echoError "\n\nReceived exception from server:", Effect.echoError e.error]
         ++ (if st.stacktrace then
               [Effect.echoPrint "\nStack trace:", Effect.echoPrint (e.stacktrace.getD "")]
             else [])
         ++ [Effect.echoPrint ("\nElapsed: " ++ e.elapsed ++ " sec.\n")]) := by
  rw [handle_query_passthrough st client q a hp]
  simp [dispatch, he, ht]

/-- C7 witness: with stacktrace display enabled, the trace appears between
the error text and the elapsed time; with it disabled, the trace is
omitted. -/
theorem db_exception_report_order_witness :
    handle_query stTrace clientDBErr "SELECT 1" {}
      = (.ok,
         [Effect.clientQuery "SELECT 1" none, Effect.echoError "\nQuery:",
          Effect.echoError "SELECT 1",
          Effect.echoError "\n\nReceived exception from server:",
          Effect.echoError "Code: 60. DB::Exception",
          Effect.echoPrint "\nStack trace:", Effect.echoPrint "0. Trace",
          Effect.echoPrint "\nElapsed: 0.001 sec.\n"])
    ∧ handle_query stDefault clientDBErr "SELECT 1" {}
      = (.ok,
         [Effect.clientQuery "SELECT 1" none, Effect.echoError "\nQuery:",
          Effect.echoError "SELECT 1",
          Effect.echoError "\n\nReceived exception from server:",
          Effect.echoError "Code: 60. DB::Exception",
          Effect.echoPrint "\nElapsed: 0.001 sec.\n"]) := by
  constructor
  · rw [db_exception_report_order stTrace clientDBErr "SELECT 1" {} dbErr
      (by decide) rfl rfl]
    rfl
  · rw [db_exception_report_order stDefault clientDBErr "SELECT 1" {} dbErr
      (by decide) rfl rfl]
    rfl

/-- C8: host resolution follows CLI value → configuration file →
hard-coded default: a CLI-supplied `x` wins over a configured `y`; without
a CLI value the configured `y` is used; with neither, `127.0.0.1`. -/
theorem load_config_host_precedence (cli : CLIArgs) (cfg : FileConfig) :
    (load_config { cli with host := some "x" } { cfg with host := "y" }).host = "x"
    ∧ (load_config { cli with host := none } { cfg with host := "y" }).host = "y"
    ∧ (load_config { cli with host := none } { cfg with host := "" }).host
        = "127.0.0.1" := by
  exact ⟨rfl, rfl, rfl⟩

/-- C9: for an input unit ending in the two-character pager marker, the
marker is stripped before statement splitting (the splitter receives the
input minus its last two characters) and every statement of the unit is
handled with the force-pager flag set. -/
theorem pager_marker_stripped_and_uniform (st : CLIState) (client : Client)
    (split : String → List String) (genId : Nat → String) (input : String) (v r : Bool)
    (hm : pyEndsWith input "\\p" = true)
    (h : ∀ q ∈ split (pyDropRight2 input), EXIT_COMMANDS.contains (pyLower q) = false) :
    handle_input st client split genId input v r
      = (.ok, unitIds genId (split (pyDropRight2 input)) 0,
         unitQueryEffects st client genId (split (pyDropRight2 input)) 0 true v
           ++ (if r ∧ pyDropRight2 input ≠ "" then [Effect.refreshMetadata] else [])) := by
  simp only [handle_input, if_pos hm]
  rw [handle_input_loop_complete st client genId (split (pyDropRight2 input)) 0 true v h]

/-- C9 witness: `"SELECT 1\p"` is split as `"SELECT 1"` and its statement
is handled with the force-pager flag set. -/
theorem pager_marker_stripped_and_uniform_witness :
    handle_input stDefault clientTimeout (fun s => [s]) (fun n => toString n)
        "SELECT 1\\p" false false
      = (.ok, ["0"],
         [Effect.clientQuery "SELECT 1" (some "0"),
          Effect.echoError "Error: Connection timeout."]) := by
  rw [pager_marker_stripped_and_uniform stDefault clientTimeout (fun s => [s])
    (fun n => toString n) "SELECT 1\\p" false false (by rfl) (by decide)]
  rfl

/-- C10: backslash meta-commands are matched case-sensitively on exact
literal text — `\D`, `\DT`, `\L`, `\D+ t`, `\C db`, `\PS` and `\KILL 1`
are not rewritten and are dispatched to the server unchanged — while exit
keywords and help are matched case-insensitively (`EXIT` and `Quit` raise
the exit signal; `HELP` and `\?` render the local help table without
dispatching). -/
theorem meta_commands_case_sensitive (st : CLIState) (client : Client) (a : HQArgs) :
    ((handle_query st client "\\D" a).2.head?
        = some (Effect.clientQuery "\\D" a.query_id))
    ∧ ((handle_query st client "\\DT" a).2.head?
        = some (Effect.clientQuery "\\DT" a.query_id))
    ∧ ((handle_query st client "\\L" a).2.head?
        = some (Effect.clientQuery "\\L" a.query_id))
    ∧ ((handle_query st client "\\D+ t" a).2.head?
        = some (Effect.clientQuery "\\D+ t" a.query_id))
    ∧ ((handle_query st client "\\C db" a).2.head?
        = some (Effect.clientQuery "\\C db" a.query_id))
    ∧ ((handle_query st client "\\PS" a).2.head?
        = some (Effect.clientQuery "\\PS" a.query_id))
    ∧ ((handle_query st client "\\KILL 1" a).2.head?
        = some (Effect.clientQuery "\\KILL 1" a.query_id))
    ∧ ((handle_query st client "EXIT" a).1 = .eofError)
    ∧ ((handle_query st client "Quit" a).1 = .eofError)
    ∧ (handle_query st client "HELP" a = (.ok, helpEffects))
    ∧ (handle_query st client "\\?" a = (.ok, helpEffects)) := by
  refine ⟨?_, ?_, ?_, ?_, ?_, ?_, ?_, rfl, rfl, rfl, rfl⟩
  · exact dispatch_head st client "\\D" a
  · exact dispatch_head st client "\\DT" a
  · exact dispatch_head st client "\\L" a
  · exact dispatch_head st client "\\D+ t" a
  · exact dispatch_head st client "\\C db" a
  · exact dispatch_head st client "\\PS" a
  · exact dispatch_head st client "\\KILL 1" a

end ClickhouseCli
